import Mathlib

/-! # Portfolio interactive layer: shallow embedding

Shallow embedding of the JavaScript interactive layer of the portfolio
repository (src/assets/js/scroll.js, which also carries the main-page
script with the form handler, and src/assets/js/navbar.js).  JS numbers
are modelled as rationals, DOM class lists as lists of string tokens,
and the asynchronous fetch of the form handler as an explicit settled
outcome value.  Division on ℚ returns 0 at a zero divisor; every
property below that involves a division carries the positivity
hypothesis under which the JS computation is itself finite.
-/

namespace Portfolio

/-- DOM classList.add: appends the token unless it is already present. -/
def classListAdd (cs : List String) (c : String) : List String :=
  if c ∈ cs then cs else cs ++ [c]

/-- DOM classList.remove: removes every occurrence of the token. -/
def classListRemove (cs : List String) (c : String) : List String :=
  cs.filter (fun x => x ≠ c)

/-- DOM classList.toggle: removes the token if present, appends it otherwise. -/
def classListToggle (cs : List String) (c : String) : List String :=
  if c ∈ cs then classListRemove cs c else cs ++ [c]

/-- scroll.js line 19: the direction string is 'up' or 'down'. -/
inductive ScrollDirection
  | up
  | down
  deriving DecidableEq, Repr

/-- scroll.js lines 15-25: ScrollManager.state. -/
structure ScrollState where
  isScrolling : Bool
  scrollPosition : ℚ
  maxScroll : ℚ
  direction : ScrollDirection
  lastScrollTop : ℚ
  scrollVelocity : ℚ
  isAtTop : Bool
  isAtBottom : Bool
  scrollPercent : ℚ
  deriving DecidableEq, Repr

/-- scroll.js lines 15-25: the initial value of ScrollManager.state. -/
def initState : ScrollState :=
  { isScrolling := false
    scrollPosition := 0
    maxScroll := 0
    direction := ScrollDirection.down
    lastScrollTop := 0
    scrollVelocity := 0
    isAtTop := true
    isAtBottom := false
    scrollPercent := 0 }

/-- scroll.js lines 28-35: ScrollManager.config. -/
structure ScrollConfig where
  throttleDelay : ℚ
  parallaxFactor : ℚ
  revealThreshold : ℚ
  hideNavbarThreshold : ℚ
  scrollSpyOffset : ℚ
  smoothScrollDuration : ℚ
  deriving DecidableEq, Repr

/-- scroll.js lines 28-35: the configured constants. -/
def config : ScrollConfig :=
  { throttleDelay := 16
    parallaxFactor := 1/2
    revealThreshold := 3/20
    hideNavbarThreshold := 100
    scrollSpyOffset := 70
    smoothScrollDuration := 800 }

/-- scroll.js lines 59-81: the state-updating part of handleScroll.
`currentScroll` is window.scrollY, `innerHeight` is window.innerHeight. -/
def handleScroll (innerHeight currentScroll : ℚ) (s : ScrollState) : ScrollState :=
  let newDirection :=
    if currentScroll > s.lastScrollTop then ScrollDirection.down
    else if currentScroll < s.lastScrollTop then ScrollDirection.up
    else s.direction
  { s with
    direction := newDirection
    scrollVelocity := currentScroll - s.lastScrollTop
    lastScrollTop := currentScroll
    scrollPosition := currentScroll
    isAtTop := currentScroll ≤ 0
    isAtBottom := currentScroll ≥ s.maxScroll - innerHeight
    scrollPercent := currentScroll / s.maxScroll * 100 }

/-- A bounding client rect restricted to the vertical extent the scroll
effects read. -/
structure Rect where
  top : ℚ
  bottom : ℚ
  deriving DecidableEq, Repr

/-- The mutable style/class state of an element carrying data-reveal. -/
structure RevealElement where
  opacity : String
  transform : String
  classes : List String
  deriving DecidableEq, Repr

/-- scroll.js lines 158-168: the per-element body of updateScrollReveal,
taking the element's current bounding rect and the viewport height. -/
def updateRevealElement (innerHeight : ℚ) (rect : Rect) (el : RevealElement) : RevealElement :=
  if rect.top < innerHeight - innerHeight * config.revealThreshold ∧ rect.bottom > 0 then
    { el with
      opacity := "1"
      transform := "translateY(0)"
      classes := classListAdd el.classes "revealed" }
  else el

/-- scroll.js lines 157-170: updateScrollReveal over the collection of
data-reveal elements, each paired with its current bounding rect. -/
def updateScrollReveal (innerHeight : ℚ) (els : List (Rect × RevealElement)) :
    List (Rect × RevealElement) :=
  els.map (fun p => (p.1, updateRevealElement innerHeight p.1 p.2))

/-- A section element carrying data-scroll-spy: its id and current rect. -/
structure SpyTarget where
  id : String
  rect : Rect
  deriving DecidableEq, Repr

/-- A navigation link carrying data-scroll-nav. -/
structure NavLink where
  href : String
  classes : List String
  deriving DecidableEq, Repr

/-- scroll.js line 186: the probe test of updateScrollSpy, with the
configured 70px offset. -/
def probeHit (t : SpyTarget) : Bool :=
  decide (t.rect.top ≤ config.scrollSpyOffset) && decide (t.rect.bottom > config.scrollSpyOffset)

/-- scroll.js lines 182-189: the loop computing activeTarget; the last
target whose rect contains the probe point wins. -/
def computeActiveTarget (targets : List SpyTarget) : Option String :=
  targets.foldl (fun acc t => if probeHit t then some t.id else acc) none

/-- scroll.js lines 181-199: updateScrollSpy.  The guard on line 191 is
JS truthiness of the activeTarget string: null and the empty string both
skip the nav update. -/
def updateScrollSpy (targets : List SpyTarget) (navs : List NavLink) : List NavLink :=
  match computeActiveTarget targets with
  | some i =>
    if i ≠ "" then
      navs.map (fun nav =>
        let removed := classListRemove nav.classes "active"
        if nav.href = "#" ++ i then { nav with classes := classListAdd removed "active" }
        else { nav with classes := removed })
    else navs
  | none => navs

/-- An element carrying data-parallax; the attribute is the parsed float
or absent. -/
structure ParallaxElement where
  dataParallax : Option ℚ
  transform : String
  willChange : String
  deriving DecidableEq, Repr

/-- scroll.js line 138: parseFloat(el.dataset.parallax) || defaultFactor.
A missing attribute (NaN) and a parsed 0 are both falsy and fall back. -/
def parallaxFactorOf (el : ParallaxElement) : ℚ :=
  match el.dataParallax with
  | some q => if q = 0 then config.parallaxFactor else q
  | none => config.parallaxFactor

/-- scroll.js lines 136-142: updateParallax. -/
def updateParallax (scrollY : ℚ) (els : List ParallaxElement) : List ParallaxElement :=
  els.map (fun el =>
    { el with transform := "translateY(" ++ toString (scrollY * parallaxFactorOf el) ++ "px)" })

/-- The mutable style state of an element carrying data-hide-on-scroll. -/
structure HideOnScrollElement where
  transform : String
  opacity : String
  pointerEvents : String
  deriving DecidableEq, Repr

/-- scroll.js lines 209-223: updateHideOnScroll. -/
def updateHideOnScroll (s : ScrollState) (els : List HideOnScrollElement) :
    List HideOnScrollElement :=
  els.map (fun el =>
    if s.direction = ScrollDirection.down ∧ s.scrollPosition > config.hideNavbarThreshold then
      { el with transform := "translateY(-100%)", opacity := "0", pointerEvents := "none" }
    else
      { el with transform := "translateY(0)", opacity := "1", pointerEvents := "auto" })

/-- An element carrying data-sticky.  `offsetTop` is the element's layout
position when initStickyElements runs, `dataOffset` the parsed
data-offset attribute, `originalTopData` the dataset.originalTop slot. -/
structure StickyElement where
  offsetTop : ℚ
  dataOffset : Option ℚ
  originalTopData : Option ℚ
  position : String
  top : String
  width : String
  zIndex : String
  classes : List String
  parentOffsetWidth : ℚ
  deriving DecidableEq, Repr

/-- scroll.js lines 229-234: initStickyElements records each element's
current offsetTop into dataset.originalTop. -/
def initStickyElements (els : List StickyElement) : List StickyElement :=
  els.map (fun el => { el with originalTopData := some el.offsetTop })

/-- scroll.js lines 237-252: the per-element body of updateStickyElements.
A missing dataset.originalTop parses to NaN, whose comparison is false,
so the element takes the non-sticky branch. -/
def updateStickyElement (s : ScrollState) (el : StickyElement) : StickyElement :=
  let offsetTop := el.dataOffset.getD 0
  match el.originalTopData with
  | some originalTop =>
    if s.scrollPosition ≥ originalTop - offsetTop then
      { el with
        position := "fixed"
        top := toString offsetTop ++ "px"
        width := toString el.parentOffsetWidth ++ "px"
        zIndex := "100"
        classes := classListAdd el.classes "sticky-active" }
    else
      { el with
        position := "relative"
        top := "0"
        classes := classListRemove el.classes "sticky-active" }
  | none =>
    { el with
      position := "relative"
      top := "0"
      classes := classListRemove el.classes "sticky-active" }

/-- scroll.js lines 236-253: updateStickyElements. -/
def updateStickyElements (s : ScrollState) (els : List StickyElement) : List StickyElement :=
  els.map (updateStickyElement s)

/-- An element target of smoothScrollToElement. -/
structure PageElement where
  offsetTop : ℚ
  deriving DecidableEq, Repr

/-- The window scroll offset driven by the smooth-scroll animation. -/
structure WindowState where
  scrollY : ℚ
  deriving DecidableEq, Repr

/-- scroll.js lines 277-279: the ease-in-out curve of the smooth scroll. -/
def easeInOut (progress : ℚ) : ℚ :=
  if progress < 1/2 then 2 * progress * progress
  else -1 + (4 - 2 * progress) * progress

/-- scroll.js lines 271-285: the scroll position the animation writes at
a given elapsed time since its first frame. -/
def smoothScrollPositionAt (startPosition distance elapsed : ℚ) : ℚ :=
  let progress := min (elapsed / config.smoothScrollDuration) 1
  startPosition + distance * easeInOut progress

/-- scroll.js lines 262-289: smoothScrollToElement.  A null element
returns immediately with no effect (line 263); otherwise the
fire-and-forget animation runs to completion (progress 1). -/
def smoothScrollToElement (element : Option PageElement) (offset : ℚ) (w : WindowState) :
    WindowState :=
  match element with
  | none => w
  | some el =>
    let targetPosition := el.offsetTop - offset
    let distance := targetPosition - w.scrollY
    { w with scrollY := smoothScrollPositionAt w.scrollY distance config.smoothScrollDuration }

/-- navbar.js: the class lists of the hamburger toggle and the menu, and
document.body.style.overflow. -/
structure NavbarState where
  burgerClasses : List String
  menuClasses : List String
  bodyOverflow : String
  deriving DecidableEq, Repr

/-- navbar.js lines 6-12: the hamburger click handler. -/
def burgerClick (s : NavbarState) : NavbarState :=
  let burger := classListToggle s.burgerClasses "open"
  let menu := classListToggle s.menuClasses "open"
  { burgerClasses := burger
    menuClasses := menu
    bodyOverflow := if "open" ∈ menu then "hidden" else "" }

/-- A form control: its name, its current value and its default value. -/
structure FormField where
  name : String
  value : String
  defaultValue : String
  deriving DecidableEq, Repr

/-- The entered state of a form. -/
structure FormState where
  fields : List FormField
  deriving DecidableEq, Repr

/-- The submit control of a form. -/
structure SubmitButton where
  disabled : Bool
  textContent : String
  deriving DecidableEq, Repr

/-- form.reset(): every control returns to its default value. -/
def formReset (f : FormState) : FormState :=
  { f with fields := f.fields.map (fun fl => { fl with value := fl.defaultValue }) }

/-- The settled outcome of the awaited fetch in handleFormSubmit: a
response carrying an HTTP status, or a thrown network error. -/
inductive FetchResult
  | response (status : Nat)
  | failure
  deriving DecidableEq, Repr

/-- Response.ok: the status is in the range 200-299. -/
def responseOk (status : Nat) : Bool :=
  decide (200 ≤ status) && decide (status < 300)

/-- A toast emitted by showNotification. -/
structure Notification where
  message : String
  severity : String
  deriving DecidableEq, Repr

/-- The observable outcome of one run of handleFormSubmit: the button
state held while the fetch is pending, the button and form state after
the finally block, and the toasts shown. -/
structure SubmitOutcome where
  duringRequest : SubmitButton
  finalButton : SubmitButton
  finalForm : FormState
  toasts : List Notification
  deriving DecidableEq, Repr

/-- Lines 1000-1035 of the combined script (main.js part of
src/assets/js/scroll.js): handleFormSubmit.  The button is disabled and
relabelled before the await; the try/catch maps the fetch outcome to a
toast and either resets or keeps the form; the finally block restores
the button unconditionally. -/
def handleFormSubmit (form : FormState) (btn : SubmitButton) (result : FetchResult) :
    SubmitOutcome :=
  let originalText := btn.textContent
  let loading : SubmitButton := { disabled := true, textContent := "Sending..." }
  let afterFetch : FormState × List Notification :=
    match result with
    | FetchResult.response status =>
      if responseOk status then
        (formReset form, [{ message := "Message sent successfully!", severity := "success" }])
      else
        (form, [{ message := "Failed to send message. Please try again.", severity := "error" }])
    | FetchResult.failure =>
      (form, [{ message := "An error occurred. Please try again later.", severity := "error" }])
  { duringRequest := loading
    finalButton := { disabled := false, textContent := originalText }
    finalForm := afterFetch.1
    toasts := afterFetch.2 }

/-- Lines 1005-1007: a form without a submit control returns before any
effect. -/
def handleFormSubmitEvent (form : FormState) (btn : Option SubmitButton)
    (result : FetchResult) : Option SubmitOutcome :=
  btn.map (fun b => handleFormSubmit form b result)

/-! ## Helper lemmas -/

/-- classList.add always leaves the added token present. -/
lemma mem_classListAdd_self (cs : List String) (c : String) : c ∈ classListAdd cs c := by
  unfold classListAdd
  split_ifs with h
  · exact h
  · exact List.mem_append_right cs (List.mem_singleton.mpr rfl)

/-- classList.add preserves membership of any token. -/
lemma mem_classListAdd_of_mem (cs : List String) (c x : String) (hx : x ∈ cs) :
    x ∈ classListAdd cs c := by
  unfold classListAdd
  split_ifs with h
  · exact hx
  · exact List.mem_append_left _ hx

/-- classList.remove leaves the removed token absent. -/
lemma not_mem_classListRemove_self (cs : List String) (c : String) :
    c ∉ classListRemove cs c := by
  unfold classListRemove
  intro h
  have := (List.mem_filter.mp h).2
  simp at this

/-- classList.remove is the identity when the token is absent. -/
lemma classListRemove_of_not_mem (cs : List String) (c : String) (h : c ∉ cs) :
    classListRemove cs c = cs := by
  unfold classListRemove
  apply List.filter_eq_self.mpr
  intro a ha
  simp only [decide_eq_true_eq]
  intro hac
  exact h (hac ▸ ha)

/-- handleScroll records the current offset as the new lastScrollTop. -/
lemma handleScroll_lastScrollTop (h c : ℚ) (s : ScrollState) :
    (handleScroll h c s).lastScrollTop = c := rfl

/-- handleScroll sets the velocity to the offset delta. -/
lemma handleScroll_velocity (h c : ℚ) (s : ScrollState) :
    (handleScroll h c s).scrollVelocity = c - s.lastScrollTop := rfl

/-- handleScroll does not change maxScroll. -/
lemma handleScroll_maxScroll (h c : ℚ) (s : ScrollState) :
    (handleScroll h c s).maxScroll = s.maxScroll := rfl

/-- A strictly larger offset than the previous one gives direction down. -/
lemma handleScroll_direction_of_gt (h c : ℚ) (s : ScrollState) (hc : s.lastScrollTop < c) :
    (handleScroll h c s).direction = ScrollDirection.down := by
  unfold handleScroll
  simp only [hc, if_pos]

/-- A strictly smaller offset than the previous one gives direction up. -/
lemma handleScroll_direction_of_lt (h c : ℚ) (s : ScrollState) (hc : c < s.lastScrollTop) :
    (handleScroll h c s).direction = ScrollDirection.up := by
  unfold handleScroll
  have h1 : ¬ s.lastScrollTop < c := not_lt.mpr hc.le
  simp only [gt_iff_lt, h1, if_neg, if_false, hc, if_pos]

/-- An unchanged offset leaves the direction unchanged. -/
lemma handleScroll_direction_of_eq (h c : ℚ) (s : ScrollState) (hc : c = s.lastScrollTop) :
    (handleScroll h c s).direction = s.direction := by
  unfold handleScroll
  subst hc
  simp

/-- The scroll-spy fold keeps its accumulator over a stretch with no
probe hit. -/
lemma spyFold_no_hit (ts : List SpyTarget) (acc : Option String)
    (h : ∀ t ∈ ts, probeHit t = false) :
    ts.foldl (fun acc t => if probeHit t then some t.id else acc) acc = acc := by
  induction ts generalizing acc with
  | nil => rfl
  | cons a r ih =>
    have ha : probeHit a = false := h a (List.mem_cons_self a r)
    simp only [List.foldl_cons, ha, Bool.false_eq_true, if_false]
    exact ih acc (fun t ht => h t (List.mem_cons_of_mem a ht))

/-- With no probe hit anywhere, activeTarget stays null. -/
lemma computeActiveTarget_eq_none (targets : List SpyTarget)
    (h : ∀ t ∈ targets, probeHit t = false) : computeActiveTarget targets = none :=
  spyFold_no_hit targets none h

/-- With no probe hit anywhere, updateScrollSpy leaves the nav links
untouched. -/
lemma updateScrollSpy_of_no_hit (targets : List SpyTarget) (navs : List NavLink)
    (h : ∀ t ∈ targets, probeHit t = false) : updateScrollSpy targets navs = navs := by
  unfold updateScrollSpy
  rw [computeActiveTarget_eq_none targets h]

/-- If some target is hit and all hit targets share the id `i`, the
scroll-spy fold returns `some i` from any accumulator. -/
lemma spyFold_unique_hit (ts : List SpyTarget) (acc : Option String) (i : String)
    (hex : ∃ u ∈ ts, probeHit u = true)
    (hall : ∀ u ∈ ts, probeHit u = true → u.id = i) :
    ts.foldl (fun acc t => if probeHit t then some t.id else acc) acc = some i := by
  induction ts generalizing acc with
  | nil => simp at hex
  | cons a r ih =>
    by_cases ha : probeHit a = true
    · have hai : a.id = i := hall a (List.mem_cons_self a r) ha
      simp only [List.foldl_cons, ha, if_true, hai]
      by_cases hr : ∃ u ∈ r, probeHit u = true
      · exact ih (some i) hr (fun u hu => hall u (List.mem_cons_of_mem a hu))
      · have hnone : ∀ t ∈ r, probeHit t = false := by
          intro t ht
          by_contra hc
          exact hr ⟨t, ht, by revert hc; cases probeHit t <;> simp⟩
        exact spyFold_no_hit r (some i) hnone
    · have ha' : probeHit a = false := by revert ha; cases probeHit a <;> simp
      simp only [List.foldl_cons, ha', Bool.false_eq_true, if_false]
      obtain ⟨u, hu, hup⟩ := hex
      rcases List.mem_cons.mp hu with rfl | hur
      · exact absurd hup ha
      · exact ih acc ⟨u, hur, hup⟩ (fun v hv => hall v (List.mem_cons_of_mem a hv))

/-- With a hit target whose id is shared by all hit targets, activeTarget
is that id. -/
lemma computeActiveTarget_eq_some (targets : List SpyTarget) (t : SpyTarget)
    (ht : t ∈ targets) (hhit : probeHit t = true)
    (hall : ∀ u ∈ targets, probeHit u = true → u.id = t.id) :
    computeActiveTarget targets = some t.id :=
  spyFold_unique_hit targets none t.id ⟨t, ht, hhit⟩ hall

/-! ## Claims -/

/-- C3: after a handleScroll event with positive maxScroll and a scroll
offset between 0 and maxScroll, scrollPercent equals
scrollPosition / maxScroll × 100, the divisor is nonzero, and the value
lies in [0, 100]. -/
theorem handleScroll_scrollPercent_bounds (innerHeight pos : ℚ) (s : ScrollState)
    (hmax : 0 < s.maxScroll) (h0 : 0 ≤ pos) (hle : pos ≤ s.maxScroll) :
    (handleScroll innerHeight pos s).scrollPercent =
      (handleScroll innerHeight pos s).scrollPosition /
        (handleScroll innerHeight pos s).maxScroll * 100 ∧
    (handleScroll innerHeight pos s).maxScroll ≠ 0 ∧
    0 ≤ (handleScroll innerHeight pos s).scrollPercent ∧
    (handleScroll innerHeight pos s).scrollPercent ≤ 100 := by
  have hfrac0 : 0 ≤ pos / s.maxScroll := div_nonneg h0 hmax.le
  have hfrac1 : pos / s.maxScroll ≤ 1 := (div_le_one hmax).mpr hle
  refine ⟨rfl, ne_of_gt hmax, ?_, ?_⟩
  · show 0 ≤ pos / s.maxScroll * 100
    positivity
  · show pos / s.maxScroll * 100 ≤ 100
    nlinarith

/-- Witness for C3 at a concrete state: maxScroll 200, offset 50. -/
theorem handleScroll_scrollPercent_bounds_witness :
    (0:ℚ) < ({ initState with maxScroll := 200 } : ScrollState).maxScroll ∧
    0 ≤ (handleScroll 600 50 { initState with maxScroll := 200 }).scrollPercent ∧
    (handleScroll 600 50 { initState with maxScroll := 200 }).scrollPercent ≤ 100 := by
  have h := handleScroll_scrollPercent_bounds 600 50 { initState with maxScroll := 200 }
    (by norm_num [initState]) (by norm_num) (by norm_num [initState])
  exact ⟨by norm_num [initState], h.2.2.1, h.2.2.2⟩

/-- C5: visiting p1 then p2 with p1 < p2 reports direction down with
velocity p2 - p1; visiting them in the reversed order reports up with
velocity p1 - p2; a first event at or past a down-state's lastScrollTop
also reports down; and the velocity of any event is the offset delta
since the previous event. -/
theorem handleScroll_direction_velocity (h1 h2 : ℚ) (s : ScrollState) (p1 p2 : ℚ)
    (hlt : p1 < p2) :
    (handleScroll h2 p2 (handleScroll h1 p1 s)).direction = ScrollDirection.down ∧
    (handleScroll h2 p2 (handleScroll h1 p1 s)).scrollVelocity = p2 - p1 ∧
    (handleScroll h2 p1 (handleScroll h1 p2 s)).direction = ScrollDirection.up ∧
    (handleScroll h2 p1 (handleScroll h1 p2 s)).scrollVelocity = p1 - p2 ∧
    (s.direction = ScrollDirection.down → s.lastScrollTop ≤ p1 →
      (handleScroll h1 p1 s).direction = ScrollDirection.down) ∧
    (handleScroll h1 p1 s).scrollVelocity = p1 - s.lastScrollTop := by
  refine ⟨?_, ?_, ?_, ?_, ?_, handleScroll_velocity h1 p1 s⟩
  · exact handleScroll_direction_of_gt h2 p2 _ (by rw [handleScroll_lastScrollTop]; exact hlt)
  · rw [handleScroll_velocity, handleScroll_lastScrollTop]
  · exact handleScroll_direction_of_lt h2 p1 _ (by rw [handleScroll_lastScrollTop]; exact hlt)
  · rw [handleScroll_velocity, handleScroll_lastScrollTop]
  · intro hdir hle
    rcases lt_or_eq_of_le hle with hl | he
    · exact handleScroll_direction_of_gt h1 p1 s hl
    · rw [handleScroll_direction_of_eq h1 p1 s he.symm, hdir]

/-- Witness for C5 at concrete offsets 100 < 300 from the initial state. -/
theorem handleScroll_direction_velocity_witness :
    (100:ℚ) < 300 ∧
    (handleScroll 600 300 (handleScroll 600 100 initState)).direction = ScrollDirection.down ∧
    (handleScroll 600 100 (handleScroll 600 300 initState)).direction = ScrollDirection.up := by
  have h := handleScroll_direction_velocity 600 600 initState 100 300 (by norm_num)
  exact ⟨by norm_num, h.1, h.2.2.1⟩

/-- C10: direction is one of up/down and starts as down, and an event
with an unchanged offset keeps the previous direction while reporting
velocity 0. -/
theorem direction_binary_zero_delta :
    initState.direction = ScrollDirection.down ∧
    (∀ s : ScrollState,
      s.direction = ScrollDirection.up ∨ s.direction = ScrollDirection.down) ∧
    (∀ (h : ℚ) (s : ScrollState),
      (handleScroll h s.lastScrollTop s).direction = s.direction ∧
      (handleScroll h s.lastScrollTop s).scrollVelocity = 0) := by
  refine ⟨rfl, ?_, ?_⟩
  · intro s
    cases hd : s.direction
    · exact Or.inl rfl
    · exact Or.inr rfl
  · intro h s
    refine ⟨handleScroll_direction_of_eq h s.lastScrollTop s rfl, ?_⟩
    rw [handleScroll_velocity]
    ring

/-- C8: every scroll-effect update is the identity on an empty marked
collection (scroll-spy also when only its nav collection is empty), and
smoothScrollToElement with a null element has no effect. -/
theorem effects_empty_and_null_noop :
    (∀ y : ℚ, updateParallax y [] = []) ∧
    (∀ h : ℚ, updateScrollReveal h [] = []) ∧
    (∀ navs : List NavLink, updateScrollSpy [] navs = navs) ∧
    (∀ targets : List SpyTarget, updateScrollSpy targets [] = []) ∧
    (∀ s : ScrollState, updateHideOnScroll s [] = []) ∧
    (∀ s : ScrollState, updateStickyElements s [] = []) ∧
    (∀ (offset : ℚ) (w : WindowState), smoothScrollToElement none offset w = w) := by
  refine ⟨fun _ => rfl, fun _ => rfl, fun _ => rfl, ?_, fun _ => rfl, fun _ => rfl,
    fun _ _ => rfl⟩
  intro targets
  unfold updateScrollSpy
  cases computeActiveTarget targets with
  | none => rfl
  | some i =>
    by_cases hi : i = ""
    · simp [hi]
    · simp [hi]

/-- The revealed state of a data-reveal element: opacity 1, zero
translation, and the revealed class present. -/
def revealedState (el : RevealElement) : Prop :=
  el.opacity = "1" ∧ el.transform = "translateY(0)" ∧ "revealed" ∈ el.classes

/-- One reveal update preserves the revealed state, whatever the
element's current geometry. -/
lemma updateRevealElement_preserves (h : ℚ) (r : Rect) (el : RevealElement)
    (hrev : revealedState el) : revealedState (updateRevealElement h r el) := by
  unfold updateRevealElement
  split_ifs with hv
  · exact ⟨rfl, rfl, mem_classListAdd_of_mem el.classes "revealed" "revealed" hrev.2.2⟩
  · exact hrev

/-- C4: reveal-on-scroll is one-way.  A revealed element stays revealed
through any further sequence of scroll events, each presenting an
arbitrary viewport height and bounding rect. -/
theorem updateScrollReveal_one_way (el : RevealElement) (hrev : revealedState el)
    (events : List (ℚ × Rect)) :
    revealedState (events.foldl (fun e g => updateRevealElement g.1 g.2 e) el) := by
  induction events generalizing el with
  | nil => exact hrev
  | cons g gs ih =>
    exact ih (updateRevealElement g.1 g.2 el) (updateRevealElement_preserves g.1 g.2 el hrev)

/-- Witness for C4: a revealed element scrolled through an offscreen
geometry and back stays revealed. -/
theorem updateScrollReveal_one_way_witness :
    revealedState { opacity := "1", transform := "translateY(0)", classes := ["revealed"] } ∧
    revealedState
      ([((800:ℚ), { top := 1000, bottom := 1200 }), ((800:ℚ), { top := 100, bottom := 300 })].foldl
        (fun e g => updateRevealElement g.1 g.2 e)
        { opacity := "1", transform := "translateY(0)", classes := ["revealed"] }) := by
  have hrev : revealedState
      { opacity := "1", transform := "translateY(0)", classes := ["revealed"] } :=
    ⟨rfl, rfl, List.mem_singleton.mpr rfl⟩
  exact ⟨hrev, updateScrollReveal_one_way _ hrev _⟩

/-- C9: when the probe point at 70px falls inside no section's bounding
box, updateScrollSpy leaves every nav link's class list unchanged. -/
theorem updateScrollSpy_no_hit_frame (targets : List SpyTarget) (navs : List NavLink)
    (h : ∀ t ∈ targets, probeHit t = false) :
    updateScrollSpy targets navs = navs :=
  updateScrollSpy_of_no_hit targets navs h

/-- Witness for C9: a section below the probe and a previously active
link that stays active. -/
theorem updateScrollSpy_no_hit_frame_witness :
    (∀ t ∈ [({ id := "about", rect := { top := 100, bottom := 400 } } : SpyTarget)],
      probeHit t = false) ∧
    updateScrollSpy [{ id := "about", rect := { top := 100, bottom := 400 } }]
        [{ href := "#about", classes := ["active"] }] =
      [{ href := "#about", classes := ["active"] }] := by
  have h : ∀ t ∈ [({ id := "about", rect := { top := 100, bottom := 400 } } : SpyTarget)],
      probeHit t = false := by decide
  exact ⟨h, updateScrollSpy_no_hit_frame _ _ h⟩

/-- C2: when the probe point hits exactly one section, with a nonempty
id and exactly one nav link addressing it, updateScrollSpy makes a link
active exactly when its href is '#' + that id, and exactly one link ends
up active; and a probe hitting no section activates no link. -/
theorem updateScrollSpy_exactly_one_active (targets : List SpyTarget) (navs : List NavLink)
    (t : SpyTarget) (ht : t ∈ targets) (hhit : probeHit t = true)
    (huniq : ∀ u ∈ targets, probeHit u = true → u = t)
    (hid : t.id ≠ "")
    (hnav : navs.countP (fun n => n.href == "#" ++ t.id) = 1) :
    (∀ nav ∈ updateScrollSpy targets navs,
      ("active" ∈ nav.classes ↔ nav.href = "#" ++ t.id)) ∧
    (updateScrollSpy targets navs).countP (fun n => decide ("active" ∈ n.classes)) = 1 ∧
    (∀ (targets2 : List SpyTarget) (navs2 : List NavLink),
      (∀ u ∈ targets2, probeHit u = false) → updateScrollSpy targets2 navs2 = navs2) := by
  have hactive : computeActiveTarget targets = some t.id :=
    computeActiveTarget_eq_some targets t ht hhit
      (fun u hu hup => congrArg SpyTarget.id (huniq u hu hup))
  have hspy : updateScrollSpy targets navs =
      navs.map (fun nav =>
        let removed := classListRemove nav.classes "active"
        if nav.href = "#" ++ t.id then { nav with classes := classListAdd removed "active" }
        else { nav with classes := removed }) := by
    unfold updateScrollSpy
    rw [hactive]
    simp only [hid, ne_eq, not_false_iff, if_true]
  have hpoint : ∀ nav : NavLink,
      ("active" ∈ (if nav.href = "#" ++ t.id then
          { nav with classes := classListAdd (classListRemove nav.classes "active") "active" }
        else { nav with classes := classListRemove nav.classes "active" } : NavLink).classes ↔
        nav.href = "#" ++ t.id) := by
    intro nav
    split_ifs with hh
    · simpa [hh] using mem_classListAdd_self (classListRemove nav.classes "active") "active"
    · simpa [hh] using not_mem_classListRemove_self nav.classes "active"
  refine ⟨?_, ?_, fun t2 n2 h2 => updateScrollSpy_of_no_hit t2 n2 h2⟩
  · intro nav hnavmem
    rw [hspy] at hnavmem
    obtain ⟨nav0, _hnav0, rfl⟩ := List.mem_map.mp hnavmem
    have hhref : (if nav0.href = "#" ++ t.id then
        ({ nav0 with classes := classListAdd (classListRemove nav0.classes "active") "active" }
          : NavLink)
      else { nav0 with classes := classListRemove nav0.classes "active" }).href = nav0.href := by
      split_ifs <;> rfl
    rw [hhref]
    exact hpoint nav0
  · rw [hspy, List.countP_map]
    rw [← hnav]
    apply List.countP_congr
    intro nav _
    by_cases hh : nav.href = "#" ++ t.id
    · have hmem : "active" ∈ classListAdd (classListRemove nav.classes "active") "active" :=
        mem_classListAdd_self _ _
      simp [Function.comp, hh, hmem]
    · have hnot : "active" ∉ classListRemove nav.classes "active" :=
        not_mem_classListRemove_self _ _
      simp [Function.comp, hh, hnot]

/-- Witness for C2: the claim's example, a section spanning viewport
rows 70-400 probed at offset 70 activates its link and deactivates the
other. -/
theorem updateScrollSpy_exactly_one_active_witness :
    probeHit { id := "home", rect := { top := 70, bottom := 400 } } = true ∧
    (∀ nav ∈ updateScrollSpy [{ id := "home", rect := { top := 70, bottom := 400 } }]
        [{ href := "#home", classes := [] }, { href := "#projects", classes := ["active"] }],
      ("active" ∈ nav.classes ↔ nav.href = "#" ++ "home")) ∧
    (updateScrollSpy [{ id := "home", rect := { top := 70, bottom := 400 } }]
        [{ href := "#home", classes := [] }, { href := "#projects", classes := ["active"] }]).countP
      (fun n => decide ("active" ∈ n.classes)) = 1 := by
  have h := updateScrollSpy_exactly_one_active
    [{ id := "home", rect := { top := 70, bottom := 400 } }]
    [{ href := "#home", classes := [] }, { href := "#projects", classes := ["active"] }]
    { id := "home", rect := { top := 70, bottom := 400 } }
    (by decide) (by decide) (by decide) (by decide) (by decide)
  exact ⟨by decide, h.1, h.2.1⟩

/-- Pointwise behaviour of the sticky update on an element whose
original top was captured. -/
lemma updateStickyElement_spec (s : ScrollState) (el : StickyElement) (v : ℚ)
    (hv : el.originalTopData = some v) :
    (s.scrollPosition ≥ v - el.dataOffset.getD 0 →
      (updateStickyElement s el).position = "fixed" ∧
      (updateStickyElement s el).top = toString (el.dataOffset.getD 0) ++ "px" ∧
      "sticky-active" ∈ (updateStickyElement s el).classes) ∧
    (s.scrollPosition < v - el.dataOffset.getD 0 →
      (updateStickyElement s el).position = "relative" ∧
      (updateStickyElement s el).top = "0" ∧
      "sticky-active" ∉ (updateStickyElement s el).classes) := by
  refine ⟨fun hge => ?_, fun hlt => ?_⟩
  · simp only [updateStickyElement, hv]
    rw [if_pos hge]
    exact ⟨rfl, rfl, mem_classListAdd_self _ _⟩
  · simp only [updateStickyElement, hv]
    rw [if_neg (not_le.mpr hlt)]
    exact ⟨rfl, rfl, not_mem_classListRemove_self _ _⟩

/-- C6: after initialization captured each sticky element's original top
offset, updateStickyElements pins element i fixed at its data-offset,
with the sticky-active class, exactly when scrollPosition is at or past
originalTop - dataOffset, and reverts it to relative flow with top 0 and
without the class otherwise. -/
theorem updateStickyElements_threshold (s : ScrollState) (els : List StickyElement)
    (i : Nat) (hi : i < els.length)
    (hi2 : i < (updateStickyElements s (initStickyElements els)).length) :
    (s.scrollPosition ≥ (els.get ⟨i, hi⟩).offsetTop - (els.get ⟨i, hi⟩).dataOffset.getD 0 →
      ((updateStickyElements s (initStickyElements els)).get ⟨i, hi2⟩).position = "fixed" ∧
      ((updateStickyElements s (initStickyElements els)).get ⟨i, hi2⟩).top =
        toString ((els.get ⟨i, hi⟩).dataOffset.getD 0) ++ "px" ∧
      "sticky-active" ∈ ((updateStickyElements s (initStickyElements els)).get ⟨i, hi2⟩).classes) ∧
    (s.scrollPosition < (els.get ⟨i, hi⟩).offsetTop - (els.get ⟨i, hi⟩).dataOffset.getD 0 →
      ((updateStickyElements s (initStickyElements els)).get ⟨i, hi2⟩).position = "relative" ∧
      ((updateStickyElements s (initStickyElements els)).get ⟨i, hi2⟩).top = "0" ∧
      "sticky-active" ∉
        ((updateStickyElements s (initStickyElements els)).get ⟨i, hi2⟩).classes) := by
  have hget : (updateStickyElements s (initStickyElements els)).get ⟨i, hi2⟩ =
      updateStickyElement s { els.get ⟨i, hi⟩ with
        originalTopData := some (els.get ⟨i, hi⟩).offsetTop } := by
    unfold updateStickyElements initStickyElements
    rw [List.get_map]
    congr 1
    rw [List.get_map]
  rw [hget]
  exact updateStickyElement_spec s
    { els.get ⟨i, hi⟩ with originalTopData := some (els.get ⟨i, hi⟩).offsetTop }
    (els.get ⟨i, hi⟩).offsetTop rfl

/-- A concrete data-sticky element used by witnesses: original top 400,
data-offset 70. -/
def stickyDemoElement : StickyElement :=
  { offsetTop := 400
    dataOffset := some 70
    originalTopData := none
    position := "static"
    top := ""
    width := ""
    zIndex := ""
    classes := []
    parentOffsetWidth := 300 }

/-- A scroll state past the demo element's sticky threshold. -/
def stickyScrollHigh : ScrollState := { initState with scrollPosition := 500 }

/-- A scroll state before the demo element's sticky threshold. -/
def stickyScrollLow : ScrollState := { initState with scrollPosition := 100 }

/-- Witness for C6: the demo element is pinned at scroll position 500
and unpinned at scroll position 100. -/
theorem updateStickyElements_threshold_witness :
    stickyScrollHigh.scrollPosition ≥
      stickyDemoElement.offsetTop - stickyDemoElement.dataOffset.getD 0 ∧
    ((updateStickyElements stickyScrollHigh (initStickyElements [stickyDemoElement])).get
      ⟨0, by decide⟩).position = "fixed" ∧
    stickyScrollLow.scrollPosition <
      stickyDemoElement.offsetTop - stickyDemoElement.dataOffset.getD 0 ∧
    ((updateStickyElements stickyScrollLow (initStickyElements [stickyDemoElement])).get
      ⟨0, by decide⟩).position = "relative" := by
  have h1 := updateStickyElements_threshold stickyScrollHigh [stickyDemoElement] 0
    (by decide) (by decide)
  have h2 := updateStickyElements_threshold stickyScrollLow [stickyDemoElement] 0
    (by decide) (by decide)
  have hge : stickyScrollHigh.scrollPosition ≥
      stickyDemoElement.offsetTop - stickyDemoElement.dataOffset.getD 0 := by
    norm_num [stickyScrollHigh, stickyDemoElement, initState]
  have hlt : stickyScrollLow.scrollPosition <
      stickyDemoElement.offsetTop - stickyDemoElement.dataOffset.getD 0 := by
    norm_num [stickyScrollLow, stickyDemoElement, initState]
  exact ⟨hge, (h1.1 hge).1, hlt, (h2.2 hlt).1⟩

/-- C7: from a closed menu with an unset body overflow, one click opens
toggle and menu and locks scrolling; a second click closes both and
unlocks, returning the whole navbar state to its initial value. -/
theorem burgerClick_round_trip (s : NavbarState)
    (hb : "open" ∉ s.burgerClasses) (hm : "open" ∉ s.menuClasses)
    (ho : s.bodyOverflow = "") :
    ("open" ∈ (burgerClick s).burgerClasses ∧
      "open" ∈ (burgerClick s).menuClasses ∧
      (burgerClick s).bodyOverflow = "hidden") ∧
    ("open" ∉ (burgerClick (burgerClick s)).burgerClasses ∧
      "open" ∉ (burgerClick (burgerClick s)).menuClasses ∧
      (burgerClick (burgerClick s)).bodyOverflow = "") ∧
    burgerClick (burgerClick s) = s := by
  have htogb : classListToggle s.burgerClasses "open" = s.burgerClasses ++ ["open"] := by
    unfold classListToggle
    rw [if_neg hb]
  have htogm : classListToggle s.menuClasses "open" = s.menuClasses ++ ["open"] := by
    unfold classListToggle
    rw [if_neg hm]
  have hmem : ∀ cs : List String, "open" ∈ cs ++ ["open"] :=
    fun cs => List.mem_append_right cs (List.mem_singleton.mpr rfl)
  have hone : burgerClick s =
      { burgerClasses := s.burgerClasses ++ ["open"]
        menuClasses := s.menuClasses ++ ["open"]
        bodyOverflow := "hidden" } := by
    simp only [burgerClick, htogb, htogm]
    rw [if_pos (hmem s.menuClasses)]
  have hback : ∀ cs : List String, "open" ∉ cs →
      classListToggle (cs ++ ["open"]) "open" = cs := by
    intro cs hcs
    unfold classListToggle
    rw [if_pos (hmem cs)]
    unfold classListRemove
    rw [List.filter_append]
    have h1 : cs.filter (fun x => x ≠ "open") = cs := by
      apply List.filter_eq_self.mpr
      intro a ha
      simp only [ne_eq, decide_not, Bool.not_eq_true', decide_eq_false_iff_not]
      intro hae
      exact hcs (hae ▸ ha)
    have h2 : (["open"] : List String).filter (fun x => x ≠ "open") = [] := by decide
    rw [h1, h2, List.append_nil]
  have htwo : burgerClick (burgerClick s) = s := by
    rw [hone]
    simp only [burgerClick]
    rw [hback s.burgerClasses hb, hback s.menuClasses hm, if_neg hm, ← ho]
  refine ⟨?_, ?_, htwo⟩
  · rw [hone]
    exact ⟨hmem s.burgerClasses, hmem s.menuClasses, rfl⟩
  · rw [htwo]
    exact ⟨hb, hm, ho⟩

/-- A concrete closed navbar state used by the C7 witness. -/
def navbarDemo : NavbarState :=
  { burgerClasses := ["hamburger"], menuClasses := ["nav-menu"], bodyOverflow := "" }

/-- Witness for C7 at a concrete closed navbar state. -/
theorem burgerClick_round_trip_witness :
    ("open" ∈ (burgerClick navbarDemo).burgerClasses ∧
      (burgerClick navbarDemo).bodyOverflow = "hidden") ∧
    burgerClick (burgerClick navbarDemo) = navbarDemo := by
  have h := burgerClick_round_trip navbarDemo (by decide) (by decide) rfl
  exact ⟨⟨h.1.1, h.1.2.2⟩, h.2.2⟩

/-- C1: handleFormSubmit disables and relabels the submit control for
the duration of the request, restores it afterward in every outcome,
resets the form and shows the success toast exactly when the response is
ok, and otherwise shows an error toast while the form keeps its entered
values. -/
theorem handleFormSubmit_spec (form : FormState) (btn : SubmitButton) (result : FetchResult) :
    (handleFormSubmit form btn result).duringRequest.disabled = true ∧
    (handleFormSubmit form btn result).duringRequest.textContent = "Sending..." ∧
    (handleFormSubmit form btn result).finalButton.disabled = false ∧
    (handleFormSubmit form btn result).finalButton.textContent = btn.textContent ∧
    (∀ status, result = FetchResult.response status → responseOk status = true →
      (handleFormSubmit form btn result).toasts =
        [{ message := "Message sent successfully!", severity := "success" }] ∧
      (handleFormSubmit form btn result).finalForm = formReset form) ∧
    (∀ status, result = FetchResult.response status → responseOk status = false →
      (handleFormSubmit form btn result).toasts =
        [{ message := "Failed to send message. Please try again.", severity := "error" }] ∧
      (handleFormSubmit form btn result).finalForm = form) ∧
    (result = FetchResult.failure →
      (handleFormSubmit form btn result).toasts =
        [{ message := "An error occurred. Please try again later.", severity := "error" }] ∧
      (handleFormSubmit form btn result).finalForm = form) ∧
    ((∃ n ∈ (handleFormSubmit form btn result).toasts, n.severity = "success") ↔
      (∃ status, result = FetchResult.response status ∧ responseOk status = true)) := by
  refine ⟨rfl, rfl, rfl, rfl, ?_, ?_, ?_, ?_⟩
  · intro status hres hok
    subst hres
    simp [handleFormSubmit, hok]
  · intro status hres hok
    subst hres
    simp [handleFormSubmit, hok]
  · intro hres
    subst hres
    exact ⟨rfl, rfl⟩
  · cases result with
    | response status =>
      by_cases hok : responseOk status = true
      · simp [handleFormSubmit, hok]
      · have hok2 : responseOk status = false := by
          revert hok; cases responseOk status <;> simp
        simp [handleFormSubmit, hok2]
    | failure =>
      simp [handleFormSubmit]

/-- A concrete entered form used by the C1 witness. -/
def formDemo : FormState :=
  { fields := [{ name := "email", value := "abc", defaultValue := "" }] }

/-- A concrete submit control used by the C1 witness. -/
def sendButtonDemo : SubmitButton := { disabled := false, textContent := "Send" }

/-- Witness for C1 exercising the success branch at status 200 and the
error branch at status 500. -/
theorem handleFormSubmit_spec_witness :
    (handleFormSubmit formDemo sendButtonDemo (FetchResult.response 200)).duringRequest.disabled
      = true ∧
    (handleFormSubmit formDemo sendButtonDemo
      (FetchResult.response 200)).finalButton.textContent = "Send" ∧
    (handleFormSubmit formDemo sendButtonDemo (FetchResult.response 200)).toasts =
      [{ message := "Message sent successfully!", severity := "success" }] ∧
    (handleFormSubmit formDemo sendButtonDemo (FetchResult.response 500)).finalForm =
      formDemo := by
  have hok := handleFormSubmit_spec formDemo sendButtonDemo (FetchResult.response 200)
  have herr := handleFormSubmit_spec formDemo sendButtonDemo (FetchResult.response 500)
  exact ⟨hok.1, hok.2.2.2.1, (hok.2.2.2.2.1 200 rfl (by decide)).1,
    (herr.2.2.2.2.2.1 500 rfl (by decide)).2⟩

end Portfolio
